import Mathlib

/-
Shallow embedding of the secio secure-channel handshake from
src/secio/secio.c (c-libp2p).  Pure helpers (list splitting, selection,
byte comparison, nonce generation) are translated directly; the stateful
handshake is modelled as a pure function of an environment record that
supplies the results of all external calls (transport receive, protobuf
decode, SHA-256, RSA sign/verify, allocations).  C byte buffers are
List Nat (byte values 0..255); C strings used for tokenizing are
List Char.  Machine ints appear only as small return codes, modelled by
Nat, and as the compare result, modelled by Int.
-/

/-- Catalog constant from secio.c line 15. -/
def SupportedExchanges : String := "P-256,P-384,P-521"

/-- Catalog constant from secio.c line 16. -/
def SupportedCiphers : String := "AES-256,AES-128,Blowfish"

/-- Catalog constant from secio.c line 17. -/
def SupportedHashes : String := "SHA256,SHA512"

/-- Bytes of a Lean string literal, as the C code would see the ASCII buffer. -/
def strBytes (s : String) : List Nat := s.data.map Char.toNat

/-- A C char array read as a NUL-terminated string: everything before the
first 0 byte.  (The C receive buffer is not guaranteed to carry a
terminator; the model reads it as terminated at its end or at the first
interior NUL, whichever comes first.) -/
def cstr (buf : List Nat) : List Nat := buf.takeWhile (fun b => b ≠ 0)

/-- strstr: does needle occur as a contiguous subsequence of hay? -/
def hasSub (needle hay : List Nat) : Bool :=
  hay.tails.any (fun t => needle.isPrefixOf t)

/-- The bytes of the substring strstr is asked for at secio.c line 282. -/
def secioBytes : List Nat := strBytes "secio"

/-- The part of the received buffer before its first newline (used only to
state the spec's "before the first newline" condition; the code itself
never computes this). -/
def firstLine (buf : List Nat) : List Nat := (cstr buf).takeWhile (fun b => b ≠ 10)

/-- libp2p_secio_generate_nonce (secio.c lines 46-51): freads up to
`length` bytes from /dev/urandom into the buffer and returns 1
unconditionally — neither fopen nor fread results are checked.
`randomBytes` is the stream /dev/urandom provides; the pair returned is
(C return value, buffer contents written). -/
def libp2p_secio_generate_nonce (randomBytes : List Nat) (length : Nat) : Nat × List Nat :=
  (1, randomBytes.take length)

/-- Core of libp2p_secio_bytes_compare (secio.c lines 74-82): walk the two
arrays in step; the first position where they differ decides the sign
(-1 when b is larger there, +1 when a is larger), 0 when no position
differs.  The element type is Int because the C code compares `char`
values, whose mapping from raw bytes depends on char signedness; the
mappings are applied by the wrappers below. -/
def libp2p_secio_bytes_compare : List Int → List Int → Int
  | a :: as, b :: bs =>
    if a < b then -1
    else if b < a then 1
    else libp2p_secio_bytes_compare as bs
  | _, _ => 0

/-- The value of a raw byte when read through C `char` on the mainstream
targets of this code (x86 Linux/BSD), where char is signed: bytes at and
above 0x80 become negative. -/
def asSignedChar (b : Nat) : Int := if b < 128 then (b : Int) else (b : Int) - 256

/-- libp2p_secio_bytes_compare as executed: arguments are raw byte
buffers, compared through signed `char` (the declared parameter type),
restricted to the first `len` positions as by the C length parameter. -/
def libp2p_secio_bytes_compare_chars (a b : List Nat) (len : Nat) : Int :=
  libp2p_secio_bytes_compare ((a.map asSignedChar).take len) ((b.map asSignedChar).take len)

/-- Modelled from the spec: the comparison the spec (4.2) asks for, with
the bytes taken as unsigned values.  Kept separate so the executed
(signed-char) comparison can be compared against it. -/
def bytes_compare_unsigned_spec (a b : List Nat) (len : Nat) : Int :=
  libp2p_secio_bytes_compare ((a.map (fun n => (n : Int))).take len)
    ((b.map (fun n => (n : Int))).take len)

/-- Worker for libp2p_secio_split_list: strtok over "," — empty segments
(leading, consecutive or trailing separators) produce no token.  `acc`
holds the characters of the token being read, in reverse. -/
def split_list_aux : List Char → List Char → List (List Char)
  | [], acc => if acc.isEmpty then [] else [acc.reverse]
  | c :: rest, acc =>
    if c = ',' then
      if acc.isEmpty then split_list_aux rest []
      else acc.reverse :: split_list_aux rest []
    else split_list_aux rest (c :: acc)

/-- libp2p_secio_split_list (secio.c lines 90-115): tokenize a
comma-separated list with strtok semantics, preserving token order. -/
def libp2p_secio_split_list (list : List Char) : List (List Char) :=
  split_list_aux list []

/-- Observable outcome of libp2p_secio_select_best: the C return value
(`ok`, 1 = true) and the value written through the `results` out
parameter (`stored` = none means the call left *results untouched). -/
structure SelectResult where
  ok : Bool
  stored : Option (List Char)
deriving DecidableEq, Repr

/-- libp2p_secio_select_best (secio.c lines 127-169).  order == 0:
allocate the first token of the local list into *results and return 1 —
with an empty local token list this dereferences a NULL head (modelled
as `none` = undefined behavior).  order ≠ 0: the lead list is the local
one when order > 0 and the remote one otherwise; the loop searches for
the first lead token with an exact match in the follower list, but only
sets a local `match` flag — the matching token is never written to
*results.  The return value is 1 exactly when some lead token occurs in
the follower list. -/
def libp2p_secio_select_best (order : Int) (local_list remote_list : List Char) :
    Option SelectResult :=
  let lead_head := libp2p_secio_split_list local_list
  if order = 0 then
    match lead_head.head? with
    | none => none
    | some t => some ⟨true, some t⟩
  else
    let lead := if order > 0 then lead_head else libp2p_secio_split_list remote_list
    let follower := if order > 0 then libp2p_secio_split_list remote_list else lead_head
    if lead.any (fun l => follower.any (fun f => f = l)) then some ⟨true, none⟩
    else some ⟨false, none⟩

/-- Modelled from the spec: the Parameter Selector contract (4.3), which
returns the first lead-list token having an exact match in the follower
list (the local list leads when order > 0, the remote list when
order < 0, and order == 0 returns the first local token). -/
def select_best_spec (order : Int) (local_list remote_list : List Char) :
    Option (List Char) :=
  if order = 0 then (libp2p_secio_split_list local_list).head?
  else
    let lead := if order > 0 then libp2p_secio_split_list local_list
                else libp2p_secio_split_list remote_list
    let follower := if order > 0 then libp2p_secio_split_list remote_list
                    else libp2p_secio_split_list local_list
    lead.find? (fun l => follower.any (fun f => f = l))

/-- Key type tag of struct PublicKey/PrivateKey (only KEYTYPE_RSA matters
to secio.c; everything else falls into the unimplemented branch). -/
inductive KeyType
  | rsa
  | other
deriving DecidableEq, Repr

/-- struct PublicKey: type tag plus raw key bytes. -/
structure PublicKey where
  keyType : KeyType
  data : List Nat
deriving DecidableEq, Repr

/-- struct Propose (libp2p/secio/propose.h): identity key bytes, 16-byte
nonce, and the three comma-separated algorithm list strings. -/
structure Propose where
  public_key : List Nat
  rand : List Nat
  exchanges : List Char
  ciphers : List Char
  hashes : List Char
deriving DecidableEq, Repr

/-- struct Exchange (libp2p/secio/exchange.h): ephemeral public key bytes
and the signature bytes. -/
structure Exchange where
  epubkey : List Nat
  signature : List Nat
deriving DecidableEq, Repr

/-- libp2p_secio_verify_signature (secio.c lines 180-189): dispatch on the
key type; RSA verification is delegated to the external crypto routine
(`rsaVerify` oracle); every other key type returns 0 without verifying. -/
def libp2p_secio_verify_signature (rsaVerify : List Nat → List Nat → Bool)
    (public_key : PublicKey) (buf signature : List Nat) : Bool :=
  match public_key.keyType with
  | KeyType.rsa => rsaVerify buf signature
  | KeyType.other => false

/-- libp2p_secio_hash (secio.c lines 59-65): SHA-256 (external, supplied
as an oracle) over public_key bytes followed by nonce bytes. -/
def libp2p_secio_hash (sha256 : List Nat → List Nat) (p : Propose) : List Nat :=
  sha256 (p.public_key ++ p.rand)

/-- Everything the handshake observes from outside its own code: transport
results, protobuf codec results, crypto primitives, allocation outcomes,
and the indeterminate contents of fields the code reads without ever
writing.  Functions model external calls whose output depends on their
input bytes.  `encodePropose` and `secureReply` are never consulted by
the code path modelled below; they exist so that spec-side claims about
the never-sent local Propose encoding and the never-read secure-channel
confirmation reply can be stated. -/
structure Env where
  /-- return of multistream_send for the protocol line (size_t, so the
  failure test `<= 0` can only see 0) -/
  sendProtocolRet : Nat
  /-- return of the first multistream_receive -/
  recvProposeRet : Nat
  /-- buffer filled by the first multistream_receive -/
  recvProposeBytes : List Nat
  /-- libp2p_secio_propose_protobuf_decode -/
  decodePropose : List Nat → Option Propose
  /-- libp2p_crypto_public_key_protobuf_decode -/
  decodePubkey : List Nat → Option PublicKey
  /-- the byte stream /dev/urandom yields -/
  urandom : List Nat
  /-- libp2p_crypto_hashing_sha256 -/
  sha256 : List Nat → List Nat
  /-- pre-handshake contents of local_session->ephemeral_public_key (+size):
  read at secio.c lines 355/358 although nothing in the handshake ever
  stores to it (key generation at line 348 only fills a discarded local) -/
  sessionEphPub : List Nat
  /-- first libp2p_utils_vector_new allocation succeeds -/
  allocVec1 : Bool
  /-- signature bytes libp2p_secio_sign produces over a given buffer (the
  sign return value is ignored by the caller; priv.type is read
  uninitialized at line 192 — the oracle absorbs that indeterminacy) -/
  signBytes : List Nat → List Nat
  /-- libp2p_secio_exchange_protobuf_encode -/
  encodeExchange : Exchange → List Nat
  /-- malloc for the outgoing exchange protobuf succeeds -/
  allocExchangeBuf : Bool
  /-- return of multistream_send for the Exchange message (unchecked) -/
  sendExchangeRet : Nat
  /-- return of the second multistream_receive (unchecked) -/
  recvExchangeRet : Nat
  /-- buffer filled by the second multistream_receive -/
  recvExchangeBytes : List Nat
  /-- libp2p_secio_exchange_protobuf_decode (its return value is ignored at
  line 377; a failed decode leaves exchange_in indeterminate, modelled as
  undefined behavior) -/
  decodeExchange : List Nat → Option Exchange
  /-- second libp2p_utils_vector_new allocation succeeds -/
  allocVec2 : Bool
  /-- libp2p_crypto_rsa_verify -/
  rsaVerify : List Nat → List Nat → Bool
  /-- libp2p_secio_propose_protobuf_encode: what the local Propose would
  encode to; the handshake never calls it -/
  encodePropose : Propose → List Nat
  /-- the confirmation reply the peer would deliver over the secure
  channel; libp2p_secio_read is a stub that returns 0 without writing its
  output parameters, so the handshake never sees this value -/
  secureReply : List Nat

/-- Which exit the handshake took: one constructor per goto-exit site of
libp2p_secio_handshake (plus `undefinedBehavior` for the paths where the
C code reads indeterminate values), and `success` for the fallthrough. -/
inductive HSExit
  | sendProtocolFailed
  | recvProposeFailed
  | protocolMismatch
  | noNewline
  | proposeDecodeFailed
  | pubkeyDecodeFailed
  | nonceGenFailed
  | vecAllocFailed1
  | exchangeBufAllocFailed
  | undefinedBehavior
  | vecAllocFailed2
  | signatureInvalid
  | confirmSizeMismatch
  | confirmCompareMismatch
  | success
deriving DecidableEq, Repr

/-- Observable outcome of a handshake run: the C return value, which exit
was taken, every message handed to multistream_send (in order), the
session's chosen-algorithm fields and nonce, and the intermediate values
the verification stage worked with (all none/[] when their stage was
never reached). -/
structure HSResult where
  exit : HSExit
  retVal : Nat
  sent : List (List Nat)
  chosenCurve : Option (List Char)
  chosenCipher : Option (List Char)
  chosenHash : Option (List Char)
  nonce : Option (List Nat)
  proposeOut : Option Propose
  proposeInBytes : Option (List Nat)
  publicKeyIn : Option PublicKey
  exchangeIn : Option Exchange
  verifyBuffer : Option (List Nat)
deriving DecidableEq, Repr

/-- The protocol identifier line sent first (secio.c line 274), without a
NUL since strlen bytes are sent. -/
def protocolBytes : List Nat := strBytes "/secio/1.0.0\n"

/-- The confirmation tail of libp2p_secio_handshake (secio.c lines
403-411).  libp2p_secio_write and libp2p_secio_read are unimplemented
stubs whose results the caller ignores; since libp2p_secio_read writes
nothing through its out parameters, results / results_size still hold
the Exchange-stage receive buffer, and the 16-byte / nonce-equality
tests run on that leftover buffer. -/
def secio_confirm_stage (env : Env) (base : HSResult) (nonce : List Nat) : HSResult :=
  if env.recvExchangeBytes.length ≠ 16 then
    { base with exit := HSExit.confirmSizeMismatch, retVal := 0 }
  else if libp2p_secio_bytes_compare_chars env.recvExchangeBytes nonce 16 ≠ 0 then
    { base with exit := HSExit.confirmCompareMismatch, retVal := 0 }
  else
    base

/-- Receipt and verification of the peer Exchange (secio.c lines
375-401).  The protobuf decode return value is ignored at line 377, so a
failed decode leaves exchange_in indeterminate (undefined behavior
here).  The verification transcript is propose_in_bytes ++
propose_out_bytes ++ peer ephemeral key, where propose_out_bytes is the
never-assigned NULL/size-0 pair, hence contributes nothing.  The
stretch-keys and MAC/cipher setup calls that follow verification are
stubs returning 0 whose results are ignored. -/
def secio_verify_stage (env : Env) (base : HSResult) (public_key : PublicKey)
    (propose_in_bytes nonce : List Nat) : HSResult :=
  match env.decodeExchange env.recvExchangeBytes with
  | none => { base with exit := HSExit.undefinedBehavior, retVal := 0 }
  | some exchange_in =>
    let base := { base with exchangeIn := some exchange_in }
    if env.allocVec2 = false then
      { base with exit := HSExit.vecAllocFailed2, retVal := 0 }
    else
      let verify_buffer := propose_in_bytes ++ exchange_in.epubkey
      let base := { base with verifyBuffer := some verify_buffer }
      if libp2p_secio_verify_signature env.rsaVerify public_key
          verify_buffer exchange_in.signature = false then
        { base with exit := HSExit.signatureInvalid, retVal := 0 }
      else
        secio_confirm_stage env base nonce

/-- Construction and dispatch of the local Exchange (secio.c lines
346-373).  The ephemeral key generated at line 348 only fills a
discarded local variable, so the epubkey actually copied into the
Exchange is the session ephemeral_public_key field nothing ever wrote
(env.sessionEphPub).  The signing transcript is propose_in_bytes ++
propose_out_bytes (NULL, size 0: nothing) ++ that same field.  The sign
return value and the Exchange send return value are both ignored. -/
def secio_exchange_stage (env : Env) (base : HSResult) (public_key : PublicKey)
    (propose_in_bytes nonce : List Nat) : HSResult :=
  if env.allocVec1 = false then
    { base with exit := HSExit.vecAllocFailed1, retVal := 0 }
  else
    let sign_buffer := propose_in_bytes ++ env.sessionEphPub
    let exchange_out : Exchange := ⟨env.sessionEphPub, env.signBytes sign_buffer⟩
    if env.allocExchangeBuf = false then
      { base with exit := HSExit.exchangeBufAllocFailed, retVal := 0 }
    else
      let base := { base with sent := base.sent ++ [env.encodeExchange exchange_out] }
      secio_verify_stage env base public_key propose_in_bytes nonce

/-- Nonce generation, local Propose construction and parameter
negotiation (secio.c lines 309-344).  Lines 319-321 copy the REMOTE
identity key (public_key->data) into propose_out.  The three
libp2p_secio_select_best return values are discarded; only their
*results stores (which happen only under order == 0) reach the
session. -/
def secio_negotiate_stage (env : Env) (base : HSResult) (propose_in : Propose)
    (public_key : PublicKey) (propose_in_bytes : List Nat) : HSResult :=
  let nres := libp2p_secio_generate_nonce env.urandom 16
  if nres.1 ≠ 1 then
    { base with exit := HSExit.nonceGenFailed, retVal := 0 }
  else
    let nonce := nres.2
    let propose_out : Propose :=
      ⟨public_key.data, nonce, SupportedExchanges.data,
        SupportedCiphers.data, SupportedHashes.data⟩
    let base := { base with nonce := some nonce, proposeOut := some propose_out }
    let order_hash_in := libp2p_secio_hash env.sha256 propose_in
    let order_hash_out := libp2p_secio_hash env.sha256 propose_out
    let order := libp2p_secio_bytes_compare_chars order_hash_in order_hash_out 32
    match libp2p_secio_select_best order propose_out.exchanges propose_in.exchanges with
    | none => { base with exit := HSExit.undefinedBehavior, retVal := 0 }
    | some selCurve =>
    match libp2p_secio_select_best order propose_out.ciphers propose_in.ciphers with
    | none => { base with exit := HSExit.undefinedBehavior, retVal := 0 }
    | some selCipher =>
    match libp2p_secio_select_best order propose_out.hashes propose_in.hashes with
    | none => { base with exit := HSExit.undefinedBehavior, retVal := 0 }
    | some selHash =>
    let base := { base with
      chosenCurve := selCurve.stored,
      chosenCipher := selCipher.stored,
      chosenHash := selHash.stored }
    secio_exchange_stage env base public_key propose_in_bytes nonce

/-- libp2p_secio_handshake (secio.c lines 254-420), as a pure function of
the environment: protocol line send, acceptance-response receive and
strstr check (over the whole C string — no newline bound), newline
search, remote Propose and identity-key decode, then the negotiation,
exchange, verification and confirmation stages above.  bytes_written is
a size_t, so the failure tests `<= 0` / `< 1` can only observe 0. -/
def libp2p_secio_handshake (env : Env) : HSResult :=
  let base : HSResult :=
    ⟨HSExit.success, 1, [protocolBytes], none, none, none, none, none, none, none, none, none⟩
  if env.sendProtocolRet = 0 then
    { base with exit := HSExit.sendProtocolFailed, retVal := 0 }
  else if env.recvProposeRet = 0 then
    { base with exit := HSExit.recvProposeFailed, retVal := 0 }
  else if hasSub secioBytes (cstr env.recvProposeBytes) = false then
    { base with exit := HSExit.protocolMismatch, retVal := 0 }
  else
    match (cstr env.recvProposeBytes).findIdx? (fun b => b = 10) with
    | none => { base with exit := HSExit.noNewline, retVal := 0 }
    | some i =>
      let propose_in_bytes := env.recvProposeBytes.drop (i + 1)
      let base := { base with proposeInBytes := some propose_in_bytes }
      match env.decodePropose propose_in_bytes with
      | none => { base with exit := HSExit.proposeDecodeFailed, retVal := 0 }
      | some propose_in =>
        match env.decodePubkey propose_in.public_key with
        | none => { base with exit := HSExit.pubkeyDecodeFailed, retVal := 0 }
        | some public_key =>
          let base := { base with publicKeyIn := some public_key }
          secio_negotiate_stage env base propose_in public_key propose_in_bytes

/-- The 16-byte nonce used by the concrete test environments. -/
def nonce16 : List Nat := List.range 16

/-- Remote Propose decoded in the concrete test environments: identity-key
field [5], nonce field [7], and algorithm lists sharing no token with the
local catalogs. -/
def pInTest : Propose := ⟨[5], [7], "FOO".data, "BAR".data, "BAZ".data⟩

/-- The local Propose the handshake builds in environment `envHappy`: the
remote identity key data [3] (lines 319-321 copy the peer's key), the
generated nonce, and the three catalog strings. -/
def pOutTest : Propose :=
  ⟨[3], nonce16, SupportedExchanges.data, SupportedCiphers.data, SupportedHashes.data⟩

/-- A concrete environment on which the handshake runs to completion and
returns 1: the peer answers "secio\n" followed by protobuf byte [42],
which decodes to `pInTest`; sha256 is the identity (so order = +1, the
local side leads); the remote algorithm lists share no token with the
catalogs; the Exchange-stage receive delivers exactly the 16 nonce bytes,
which is what the stubbed confirmation step ends up comparing. -/
def envHappy : Env where
  sendProtocolRet := 13
  recvProposeRet := 10
  recvProposeBytes := strBytes "secio\n" ++ [42]
  decodePropose := fun b => if b = [42] then some pInTest else none
  decodePubkey := fun b => if b = [5] then some ⟨KeyType.rsa, [3]⟩ else none
  urandom := nonce16
  sha256 := fun l => l
  sessionEphPub := [77]
  allocVec1 := true
  signBytes := fun _ => [88]
  encodeExchange := fun _ => [99]
  allocExchangeBuf := true
  sendExchangeRet := 1
  recvExchangeRet := 16
  recvExchangeBytes := nonce16
  decodeExchange := fun b => if b = nonce16 then some ⟨[70], [71]⟩ else none
  allocVec2 := true
  rsaVerify := fun _ _ => true
  encodePropose := fun _ => [9, 9, 9]
  secureReply := [1]

/-- Like `envHappy`, but the peer's would-be secure-channel confirmation
reply is exactly the local nonce while the Exchange-stage receive buffer
is 17 bytes long; the Exchange decode accepts any buffer. -/
def envConfirm : Env :=
  { envHappy with
      recvExchangeBytes := nonce16 ++ [20]
      decodeExchange := fun _ => some ⟨[70], [71]⟩
      secureReply := nonce16 }

/-- Like `envHappy`, but the peer's response places "secio" only after the
first newline: the first line is just "X". -/
def envLateSecio : Env :=
  { envHappy with recvProposeBytes := strBytes "X\nsecio" }

/-- Like `envHappy`, but RSA verification rejects the signature. -/
def envBadSig : Env :=
  { envHappy with rsaVerify := fun _ _ => false }

/-- C1: at the spec's own example — order = +1, lead list "P-256,P-384",
follower list "P-384,P-256" — libp2p_secio_select_best returns success
but leaves *results untouched (stored = none), while the selector the
spec describes would store "P-256".  The claim that the chosen algorithm
is stored in *results fails: outside the order == 0 shortcut the match
is found and then discarded. -/
theorem select_best_never_stores_on_nonzero_order :
    libp2p_secio_select_best 1 ("P-256,P-384".data) ("P-384,P-256".data) =
      some ⟨true, none⟩ ∧
    select_best_spec 1 ("P-256,P-384".data) ("P-384,P-256".data) =
      some ("P-256".data) := by
  constructor
  · decide
  · decide

/-- C2: with order = +1 and a remote exchange list sharing no token with
the local catalog, libp2p_secio_select_best does return failure — but in
`envHappy` all three remote lists are disjoint from the catalogs, and
the handshake (which discards the three selection results at secio.c
lines 334-338) still sends the Exchange message and returns 1, with no
chosen curve ever stored on the session. -/
theorem handshake_ignores_selection_failure :
    libp2p_secio_select_best 1 (SupportedExchanges.data) ("FOO".data) =
      some ⟨false, none⟩ ∧
    (libp2p_secio_handshake envHappy).exit = HSExit.success ∧
    (libp2p_secio_handshake envHappy).retVal = 1 ∧
    (libp2p_secio_handshake envHappy).chosenCurve = none ∧
    (libp2p_secio_handshake envHappy).sent = [protocolBytes, [99]] := by
  refine ⟨by decide, by decide, by decide, by decide, by decide⟩

/-- C4: on the completed run `envHappy`, the messages handed to the
transport are exactly the protocol line "/secio/1.0.0\n" and the encoded
Exchange [99]; the local Propose is built (proposeOut) but its encoding
([9,9,9] under this environment's codec) is never sent — the code never
calls the Propose encoder, leaving propose_out_bytes NULL. -/
theorem handshake_never_sends_local_propose :
    (libp2p_secio_handshake envHappy).sent = [protocolBytes, [99]] ∧
    (libp2p_secio_handshake envHappy).proposeOut = some pOutTest ∧
    envHappy.encodePropose pOutTest = [9, 9, 9] ∧
    [9, 9, 9] ∉ (libp2p_secio_handshake envHappy).sent := by
  refine ⟨by decide, by decide, by decide, by decide⟩

/-- C5: the confirmation decision is independent of any reply read over
the secure channel, because libp2p_secio_read is an unimplemented stub
that writes nothing: in `envHappy` the peer's would-be reply is the
single byte [1] (not the nonce) yet the handshake returns 1, while in
`envConfirm` the would-be reply is exactly the 16-byte local nonce yet
the handshake returns 0 — the size test ran on the leftover 17-byte
Exchange-stage receive buffer. -/
theorem confirmation_ignores_secure_channel_reply :
    (libp2p_secio_handshake envHappy).retVal = 1 ∧
    envHappy.secureReply = [1] ∧
    (libp2p_secio_handshake envHappy).nonce = some nonce16 ∧
    [1] ≠ nonce16 ∧
    (libp2p_secio_handshake envConfirm).retVal = 0 ∧
    (libp2p_secio_handshake envConfirm).exit = HSExit.confirmSizeMismatch ∧
    envConfirm.secureReply = nonce16 ∧
    (libp2p_secio_handshake envConfirm).nonce = some nonce16 ∧
    nonce16.length = 16 := by
  refine ⟨by decide, by decide, by decide, by decide, by decide, by decide, by decide,
    by decide, by decide⟩

/-- C7 counterevidence: on the byte pair a = 80 00...00, b = 01 00...00
the comparison as executed (through signed char) returns -1, while the
unsigned comparison the claim describes returns +1. -/
theorem bytes_compare_signed_vs_unsigned :
    libp2p_secio_bytes_compare_chars (128 :: List.replicate 31 0)
      (1 :: List.replicate 31 0) 32 = -1 ∧
    bytes_compare_unsigned_spec (128 :: List.replicate 31 0)
      (1 :: List.replicate 31 0) 32 = 1 := by
  constructor
  · decide
  · decide

/-- C6 counterexample: the peer response "X\nsecio" has no "secio" before
its first newline, yet the handshake does not abort at the acceptance
check (strstr scans the whole C string): it proceeds and fails only
later, at the Propose decode. -/
theorem late_secio_passes_acceptance_check :
    hasSub secioBytes (firstLine envLateSecio.recvProposeBytes) = false ∧
    (libp2p_secio_handshake envLateSecio).exit ≠ HSExit.protocolMismatch ∧
    (libp2p_secio_handshake envLateSecio).exit = HSExit.proposeDecodeFailed := by
  refine ⟨by decide, by decide, by decide⟩

/-- C3 counterexample: on `envHappy` the buffer handed to signature
verification is [42, 70] = remote-Propose-bytes ++ peer-ephemeral-key —
not the claimed local-Propose-encoding ++ remote-Propose-bytes ++
peer-ephemeral-key, which under this environment's codec would be
[9, 9, 9, 42, 70]: the local Propose encoding is absent because the code
never produces it. -/
theorem verify_buffer_lacks_local_propose :
    (libp2p_secio_handshake envHappy).verifyBuffer = some [42, 70] ∧
    (libp2p_secio_handshake envHappy).proposeOut = some pOutTest ∧
    (libp2p_secio_handshake envHappy).proposeInBytes = some [42] ∧
    (libp2p_secio_handshake envHappy).exchangeIn = some ⟨[70], [71]⟩ ∧
    envHappy.encodePropose pOutTest ++ [42] ++ [70] ≠ [42, 70] := by
  refine ⟨by decide, by decide, by decide, by decide, by decide⟩

/-- Reflexivity of the comparison core: equal arrays compare to 0. -/
lemma bytes_compare_self (a : List Int) : libp2p_secio_bytes_compare a a = 0 := by
  induction a with
  | nil => rfl
  | cons x xs ih => simp [libp2p_secio_bytes_compare, ih]

/-- Swapping the arguments of the comparison core negates its result. -/
lemma bytes_compare_swap (a : List Int) :
    ∀ b : List Int, libp2p_secio_bytes_compare b a = -libp2p_secio_bytes_compare a b := by
  induction a with
  | nil => intro b; cases b <;> rfl
  | cons x xs ih =>
    intro b
    cases b with
    | nil => rfl
    | cons y ys =>
      simp only [libp2p_secio_bytes_compare]
      rcases lt_trichotomy x y with h | h | h
      · rw [if_neg (by omega), if_pos h, if_pos h]
        norm_num
      · subst h
        simp [lt_irrefl, ih ys]
      · rw [if_pos h, if_neg (by omega), if_pos h]

/-- C8: for byte arrays of the same length, libp2p_secio_bytes_compare
(as executed, over the full common length) is antisymmetric — a result
of +1 flips to -1 when the arguments are swapped — and every array
compares equal to itself. -/
theorem bytes_compare_antisymm (a b : List Nat) (h : a.length = b.length) :
    (libp2p_secio_bytes_compare_chars a b a.length = 1 →
      libp2p_secio_bytes_compare_chars b a b.length = -1) ∧
    libp2p_secio_bytes_compare_chars a a a.length = 0 := by
  have hta : (a.map asSignedChar).take a.length = a.map asSignedChar := by
    simp
  have htb : (b.map asSignedChar).take b.length = b.map asSignedChar := by
    simp
  have htab : (b.map asSignedChar).take a.length = b.map asSignedChar := by
    rw [h]; simp
  have htba : (a.map asSignedChar).take b.length = a.map asSignedChar := by
    rw [← h]; simp
  constructor
  · intro h1
    unfold libp2p_secio_bytes_compare_chars at h1 ⊢
    rw [hta, htab] at h1
    rw [htb, htba, bytes_compare_swap, h1]
  · unfold libp2p_secio_bytes_compare_chars
    rw [hta, bytes_compare_self]

/-- Witness for bytes_compare_antisymm at a = [2], b = [1]: the compare
gives +1, the swapped compare gives -1, and [2] compares equal to
itself. -/
theorem bytes_compare_antisymm_witness :
    libp2p_secio_bytes_compare_chars [2] [1] 1 = 1 ∧
    libp2p_secio_bytes_compare_chars [1] [2] 1 = -1 ∧
    libp2p_secio_bytes_compare_chars [2] [2] 1 = 0 :=
  ⟨by decide,
   (bytes_compare_antisymm [2] [1] (by decide)).1 (by decide),
   (bytes_compare_antisymm [2] [2] (by decide)).2⟩

/-- C9: whenever the local list has a first token t, a call with
order == 0 returns success with t stored in *results, and the outcome is
the same whatever the remote list is — the order == 0 shortcut returns
before the remote list is ever split. -/
theorem select_best_order_zero (l r t : List Char)
    (h : (libp2p_secio_split_list l).head? = some t) :
    libp2p_secio_select_best 0 l r = some ⟨true, some t⟩ ∧
    ∀ r2 : List Char, libp2p_secio_select_best 0 l r2 = libp2p_secio_select_best 0 l r := by
  constructor
  · unfold libp2p_secio_select_best
    rw [if_pos rfl, h]
  · intro r2
    unfold libp2p_secio_select_best
    rw [if_pos rfl, if_pos rfl]

/-- Witness for select_best_order_zero at local "P-256,P-384", remote
"XYZ": the stored result is the first local token "P-256", and swapping
the remote list for "P-384" changes nothing. -/
theorem select_best_order_zero_witness :
    libp2p_secio_select_best 0 ("P-256,P-384".data) ("XYZ".data) =
      some ⟨true, some ("P-256".data)⟩ ∧
    libp2p_secio_select_best 0 ("P-256,P-384".data) ("P-384".data) =
      libp2p_secio_select_best 0 ("P-256,P-384".data) ("XYZ".data) :=
  ⟨(select_best_order_zero ("P-256,P-384".data) ("XYZ".data) ("P-256".data) (by decide)).1,
   (select_best_order_zero ("P-256,P-384".data) ("XYZ".data) ("P-256".data) (by decide)).2
     ("P-384".data)⟩

/-- The confirmation stage either keeps the exit it was handed or stops at
one of its two mismatch exits. -/
lemma secio_confirm_stage_exit (env : Env) (base : HSResult) (nonce : List Nat) :
    (secio_confirm_stage env base nonce).exit = base.exit ∨
    (secio_confirm_stage env base nonce).exit = HSExit.confirmSizeMismatch ∨
    (secio_confirm_stage env base nonce).exit = HSExit.confirmCompareMismatch := by
  unfold secio_confirm_stage
  split
  · simp
  · split <;> simp

/-- The verification stage keeps the exit it was handed or stops at one of
its own or the confirmation stage's exits. -/
lemma secio_verify_stage_exit (env : Env) (base : HSResult) (public_key : PublicKey)
    (propose_in_bytes nonce : List Nat) :
    (secio_verify_stage env base public_key propose_in_bytes nonce).exit = base.exit ∨
    (secio_verify_stage env base public_key propose_in_bytes nonce).exit = HSExit.undefinedBehavior ∨
    (secio_verify_stage env base public_key propose_in_bytes nonce).exit = HSExit.vecAllocFailed2 ∨
    (secio_verify_stage env base public_key propose_in_bytes nonce).exit = HSExit.signatureInvalid ∨
    (secio_verify_stage env base public_key propose_in_bytes nonce).exit = HSExit.confirmSizeMismatch ∨
    (secio_verify_stage env base public_key propose_in_bytes nonce).exit = HSExit.confirmCompareMismatch := by
  unfold secio_verify_stage
  rcases hdec : env.decodeExchange env.recvExchangeBytes with _ | exchange_in
  · simp [hdec]
  · simp only [hdec]
    split
    · simp
    · split
      · simp
      · rcases (secio_confirm_stage_exit env ({ base with exchangeIn := some exchange_in, verifyBuffer := some (propose_in_bytes ++ exchange_in.epubkey) }) nonce) with h | h | h
        · exact Or.inl h
        · exact Or.inr (Or.inr (Or.inr (Or.inr (Or.inl h))))
        · exact Or.inr (Or.inr (Or.inr (Or.inr (Or.inr h))))

/-- The exchange stage keeps the exit it was handed or stops at one of the
exits of itself or of the later stages. -/
lemma secio_exchange_stage_exit (env : Env) (base : HSResult) (public_key : PublicKey)
    (propose_in_bytes nonce : List Nat) :
    (secio_exchange_stage env base public_key propose_in_bytes nonce).exit = base.exit ∨
    (secio_exchange_stage env base public_key propose_in_bytes nonce).exit = HSExit.vecAllocFailed1 ∨
    (secio_exchange_stage env base public_key propose_in_bytes nonce).exit = HSExit.exchangeBufAllocFailed ∨
    (secio_exchange_stage env base public_key propose_in_bytes nonce).exit = HSExit.undefinedBehavior ∨
    (secio_exchange_stage env base public_key propose_in_bytes nonce).exit = HSExit.vecAllocFailed2 ∨
    (secio_exchange_stage env base public_key propose_in_bytes nonce).exit = HSExit.signatureInvalid ∨
    (secio_exchange_stage env base public_key propose_in_bytes nonce).exit = HSExit.confirmSizeMismatch ∨
    (secio_exchange_stage env base public_key propose_in_bytes nonce).exit = HSExit.confirmCompareMismatch := by
  unfold secio_exchange_stage
  split
  · simp
  · split
    · simp
    · rcases (secio_verify_stage_exit env ({ base with sent := base.sent ++ [env.encodeExchange ⟨env.sessionEphPub, env.signBytes (propose_in_bytes ++ env.sessionEphPub)⟩] }) public_key propose_in_bytes nonce) with h | h | h | h | h | h
      · exact Or.inl h
      · exact Or.inr (Or.inr (Or.inr (Or.inl h)))
      · exact Or.inr (Or.inr (Or.inr (Or.inr (Or.inl h))))
      · exact Or.inr (Or.inr (Or.inr (Or.inr (Or.inr (Or.inl h)))))
      · exact Or.inr (Or.inr (Or.inr (Or.inr (Or.inr (Or.inr (Or.inl h))))))
      · exact Or.inr (Or.inr (Or.inr (Or.inr (Or.inr (Or.inr (Or.inr h))))))

/-- The negotiation stage keeps the exit it was handed or stops at one of
the exits of itself or of the later stages; its own nonceGenFailed exit
never occurs, because libp2p_secio_generate_nonce cannot fail. -/
lemma secio_negotiate_stage_exit (env : Env) (base : HSResult) (propose_in : Propose)
    (public_key : PublicKey) (propose_in_bytes : List Nat) :
    (secio_negotiate_stage env base propose_in public_key propose_in_bytes).exit = base.exit ∨
    (secio_negotiate_stage env base propose_in public_key propose_in_bytes).exit = HSExit.vecAllocFailed1 ∨
    (secio_negotiate_stage env base propose_in public_key propose_in_bytes).exit = HSExit.exchangeBufAllocFailed ∨
    (secio_negotiate_stage env base propose_in public_key propose_in_bytes).exit = HSExit.undefinedBehavior ∨
    (secio_negotiate_stage env base propose_in public_key propose_in_bytes).exit = HSExit.vecAllocFailed2 ∨
    (secio_negotiate_stage env base propose_in public_key propose_in_bytes).exit = HSExit.signatureInvalid ∨
    (secio_negotiate_stage env base propose_in public_key propose_in_bytes).exit = HSExit.confirmSizeMismatch ∨
    (secio_negotiate_stage env base propose_in public_key propose_in_bytes).exit = HSExit.confirmCompareMismatch := by
  unfold secio_negotiate_stage
  simp only [libp2p_secio_generate_nonce, ne_eq, not_true_eq_false, if_false, ite_false]
  split
  · simp
  · split
    · simp
    · split
      · simp
      · exact (secio_exchange_stage_exit env _ public_key propose_in_bytes _).imp
          (fun h => h) (fun h => h)

/-- Every exit the handshake can take: each goto-exit site of secio.c
except the nonce-generation one, or success. -/
lemma libp2p_secio_handshake_exit_cases (env : Env) :
    (libp2p_secio_handshake env).exit = HSExit.success ∨
    (libp2p_secio_handshake env).exit = HSExit.sendProtocolFailed ∨
    (libp2p_secio_handshake env).exit = HSExit.recvProposeFailed ∨
    (libp2p_secio_handshake env).exit = HSExit.protocolMismatch ∨
    (libp2p_secio_handshake env).exit = HSExit.noNewline ∨
    (libp2p_secio_handshake env).exit = HSExit.proposeDecodeFailed ∨
    (libp2p_secio_handshake env).exit = HSExit.pubkeyDecodeFailed ∨
    (libp2p_secio_handshake env).exit = HSExit.vecAllocFailed1 ∨
    (libp2p_secio_handshake env).exit = HSExit.exchangeBufAllocFailed ∨
    (libp2p_secio_handshake env).exit = HSExit.undefinedBehavior ∨
    (libp2p_secio_handshake env).exit = HSExit.vecAllocFailed2 ∨
    (libp2p_secio_handshake env).exit = HSExit.signatureInvalid ∨
    (libp2p_secio_handshake env).exit = HSExit.confirmSizeMismatch ∨
    (libp2p_secio_handshake env).exit = HSExit.confirmCompareMismatch := by
  unfold libp2p_secio_handshake
  simp only []
  split
  · simp
  · split
    · simp
    · split
      · simp
      · split
        · simp
        · split
          · simp
          · split
            · simp
            · rcases (secio_negotiate_stage_exit env _ _ _ _) with
                h | h | h | h | h | h | h | h
              · exact Or.inl h
              · exact Or.inr (Or.inr (Or.inr (Or.inr (Or.inr (Or.inr (Or.inr (Or.inl h)))))))
              · exact Or.inr (Or.inr (Or.inr (Or.inr (Or.inr (Or.inr (Or.inr (Or.inr (Or.inl h))))))))
              · exact Or.inr (Or.inr (Or.inr (Or.inr (Or.inr (Or.inr (Or.inr (Or.inr (Or.inr (Or.inl h)))))))))
              · exact Or.inr (Or.inr (Or.inr (Or.inr (Or.inr (Or.inr (Or.inr (Or.inr (Or.inr (Or.inr (Or.inl h))))))))))
              · exact Or.inr (Or.inr (Or.inr (Or.inr (Or.inr (Or.inr (Or.inr (Or.inr (Or.inr (Or.inr (Or.inr (Or.inl h)))))))))))
              · exact Or.inr (Or.inr (Or.inr (Or.inr (Or.inr (Or.inr (Or.inr (Or.inr (Or.inr (Or.inr (Or.inr (Or.inr (Or.inl h))))))))))))
              · exact Or.inr (Or.inr (Or.inr (Or.inr (Or.inr (Or.inr (Or.inr (Or.inr (Or.inr (Or.inr (Or.inr (Or.inr (Or.inr h))))))))))))

/-- C10: libp2p_secio_generate_nonce returns 1 (success) whatever bytes
fread actually obtained and whatever length was requested, and
consequently no environment whatsoever can make the handshake take its
nonce-generation failure exit: that branch of libp2p_secio_handshake is
unreachable. -/
theorem generate_nonce_always_succeeds :
    (∀ (bytes : List Nat) (len : Nat), (libp2p_secio_generate_nonce bytes len).1 = 1) ∧
    ∀ env : Env, (libp2p_secio_handshake env).exit ≠ HSExit.nonceGenFailed := by
  constructor
  · intro bytes len
    rfl
  · intro env
    rcases libp2p_secio_handshake_exit_cases env with
      h | h | h | h | h | h | h | h | h | h | h | h | h | h <;> rw [h] <;> decide

/-- C6 (amended): once the protocol-line send and the first receive have
succeeded, the handshake stops at the acceptance check exactly when
"secio" occurs nowhere in the received buffer read as a C string — the
check is a plain strstr over the whole buffer, with no restriction to
the part before the first newline. -/
theorem handshake_acceptance_check (env : Env) (h1 : env.sendProtocolRet ≠ 0)
    (h2 : env.recvProposeRet ≠ 0) :
    (libp2p_secio_handshake env).exit = HSExit.protocolMismatch ↔
      hasSub secioBytes (cstr env.recvProposeBytes) = false := by
  unfold libp2p_secio_handshake
  simp only []
  rw [if_neg h1, if_neg h2]
  by_cases hs : hasSub secioBytes (cstr env.recvProposeBytes) = false
  · rw [if_pos hs]
    simp [hs]
  · rw [if_neg hs]
    apply iff_of_false ?_ hs
    intro hc
    split at hc
    · exact HSExit.noConfusion hc
    · split at hc
      · exact HSExit.noConfusion hc
      · split at hc
        · exact HSExit.noConfusion hc
        · rcases (secio_negotiate_stage_exit env _ _ _ _) with
            h | h | h | h | h | h | h | h <;>
            exact HSExit.noConfusion (h.symm.trans hc)

/-- Witness for handshake_acceptance_check at `envHappy`: both transport
results are nonzero, the response does contain "secio", and the
handshake indeed does not exit at the acceptance check. -/
theorem handshake_acceptance_check_witness :
    ¬(libp2p_secio_handshake envHappy).exit = HSExit.protocolMismatch :=
  fun hc =>
    (by decide :
      ¬hasSub secioBytes (cstr envHappy.recvProposeBytes) = false)
      ((handshake_acceptance_check envHappy (by decide) (by decide)).mp hc)

/-- The confirmation stage never changes the recorded verification buffer,
Exchange, Propose bytes or identity key. -/
lemma secio_confirm_stage_preserves (env : Env) (b : HSResult) (n : List Nat) :
    (secio_confirm_stage env b n).verifyBuffer = b.verifyBuffer ∧
    (secio_confirm_stage env b n).exchangeIn = b.exchangeIn ∧
    (secio_confirm_stage env b n).proposeInBytes = b.proposeInBytes ∧
    (secio_confirm_stage env b n).publicKeyIn = b.publicKeyIn := by
  unfold secio_confirm_stage
  split
  · simp
  · split <;> simp

/-- What holds of a handshake outcome on the verification side: whenever
a verification buffer was recorded, it is exactly the remote Propose
bytes followed by the peer ephemeral key from the decoded Exchange, and
a rejected signature forces the signatureInvalid exit with return 0. -/
def VerifySpec (env : Env) (pk : PublicKey) (pib : List Nat) (r : HSResult) : Prop :=
  ∀ B, r.verifyBuffer = some B →
    ∃ exin, r.exchangeIn = some exin ∧ B = pib ++ exin.epubkey ∧
      (libp2p_secio_verify_signature env.rsaVerify pk B exin.signature = false →
        r.exit = HSExit.signatureInvalid ∧ r.retVal = 0)

/-- The verification stage satisfies VerifySpec whenever it starts with no
verification buffer recorded. -/
lemma secio_verify_stage_spec (env : Env) (b : HSResult) (pk : PublicKey)
    (pib n : List Nat) (hvb : b.verifyBuffer = none) :
    VerifySpec env pk pib (secio_verify_stage env b pk pib n) := by
  unfold secio_verify_stage VerifySpec
  rcases hdec : env.decodeExchange env.recvExchangeBytes with _ | exchange_in
  · simp only [hdec]
    intro B hB
    simp [hvb] at hB
  · simp only [hdec]
    split
    · intro B hB
      simp [hvb] at hB
    · split
      · intro B hB
        simp only [] at hB
        refine ⟨exchange_in, by simp, ?_, ?_⟩
        · simpa using hB.symm
        · intro _
          constructor <;> rfl
      · intro B hB
        rename_i hver
        obtain ⟨hpv, hpe, _, _⟩ := secio_confirm_stage_preserves env ({ b with exchangeIn := some exchange_in, verifyBuffer := some (pib ++ exchange_in.epubkey) }) n
        rw [hpv] at hB
        simp only [Option.some.injEq] at hB
        refine ⟨exchange_in, by rw [hpe], ?_, ?_⟩
        · exact hB.symm
        · intro hfalse
          rw [← hB] at hfalse
          exact absurd hfalse hver

/-- The verification stage never changes the recorded Propose bytes or
identity key. -/
lemma secio_verify_stage_preserves (env : Env) (b : HSResult) (pk : PublicKey)
    (pib n : List Nat) :
    (secio_verify_stage env b pk pib n).proposeInBytes = b.proposeInBytes ∧
    (secio_verify_stage env b pk pib n).publicKeyIn = b.publicKeyIn := by
  unfold secio_verify_stage
  simp only []
  split
  · simp
  · split
    · simp
    · split
      · simp
      · obtain ⟨_, _, h3, h4⟩ := secio_confirm_stage_preserves env _ n
        exact ⟨h3, h4⟩

/-- The exchange stage never changes the recorded Propose bytes or
identity key. -/
lemma secio_exchange_stage_preserves (env : Env) (b : HSResult) (pk : PublicKey)
    (pib n : List Nat) :
    (secio_exchange_stage env b pk pib n).proposeInBytes = b.proposeInBytes ∧
    (secio_exchange_stage env b pk pib n).publicKeyIn = b.publicKeyIn := by
  unfold secio_exchange_stage
  split
  · simp
  · split
    · simp
    · exact secio_verify_stage_preserves env _ pk pib n

/-- The negotiation stage never changes the recorded Propose bytes or
identity key. -/
lemma secio_negotiate_stage_preserves (env : Env) (b : HSResult) (p : Propose)
    (pk : PublicKey) (pib : List Nat) :
    (secio_negotiate_stage env b p pk pib).proposeInBytes = b.proposeInBytes ∧
    (secio_negotiate_stage env b p pk pib).publicKeyIn = b.publicKeyIn := by
  unfold secio_negotiate_stage
  simp only [libp2p_secio_generate_nonce, ne_eq, not_true_eq_false, if_false, ite_false]
  split
  · simp
  · split
    · simp
    · split
      · simp
      · exact secio_exchange_stage_preserves env _ pk pib _

/-- The exchange stage satisfies VerifySpec whenever it starts with no
verification buffer recorded. -/
lemma secio_exchange_stage_spec (env : Env) (b : HSResult) (pk : PublicKey)
    (pib n : List Nat) (hvb : b.verifyBuffer = none) :
    VerifySpec env pk pib (secio_exchange_stage env b pk pib n) := by
  unfold secio_exchange_stage
  split
  · intro B hB
    simp [hvb] at hB
  · split
    · intro B hB
      simp [hvb] at hB
    · exact secio_verify_stage_spec env _ pk pib n (by simp [hvb])

/-- The negotiation stage satisfies VerifySpec whenever it starts with no
verification buffer recorded. -/
lemma secio_negotiate_stage_spec (env : Env) (b : HSResult) (p : Propose)
    (pk : PublicKey) (pib : List Nat) (hvb : b.verifyBuffer = none) :
    VerifySpec env pk pib (secio_negotiate_stage env b p pk pib) := by
  unfold secio_negotiate_stage
  simp only [libp2p_secio_generate_nonce, ne_eq, not_true_eq_false, if_false, ite_false]
  split
  · intro B hB
    simp [hvb] at hB
  · split
    · intro B hB
      simp [hvb] at hB
    · split
      · intro B hB
        simp [hvb] at hB
      · exact secio_exchange_stage_spec env _ pk pib _ (by simp [hvb])

/-- VerifySpec at the whole-handshake level: the recorded Propose bytes
and identity key are the ones the verification transcript and signature
check used. -/
def HandshakeVerifySpec (env : Env) (r : HSResult) : Prop :=
  ∀ B, r.verifyBuffer = some B →
    ∃ pin pk exin, r.proposeInBytes = some pin ∧ r.publicKeyIn = some pk ∧
      r.exchangeIn = some exin ∧ B = pin ++ exin.epubkey ∧
      (libp2p_secio_verify_signature env.rsaVerify pk B exin.signature = false →
        r.exit = HSExit.signatureInvalid ∧ r.retVal = 0)

/-- Every handshake run satisfies HandshakeVerifySpec. -/
lemma handshake_verify_aux (env : Env) :
    HandshakeVerifySpec env (libp2p_secio_handshake env) := by
  unfold libp2p_secio_handshake HandshakeVerifySpec
  simp only []
  split
  · intro B hB
    simp at hB
  · split
    · intro B hB
      simp at hB
    · split
      · intro B hB
        simp at hB
      · split
        · intro B hB
          simp at hB
        · split
          · intro B hB
            simp at hB
          · split
            · intro B hB
              simp at hB
            · rename_i xo i hI xp propose_in hP xk public_key hK
              intro B hB
              obtain ⟨exin, hex, hBeq, himp⟩ :=
                secio_negotiate_stage_spec env _ propose_in public_key
                  (env.recvProposeBytes.drop (i + 1)) (by simp) B hB
              obtain ⟨hpin, hpk⟩ :=
                secio_negotiate_stage_preserves env _ propose_in public_key
                  (env.recvProposeBytes.drop (i + 1))
              refine ⟨env.recvProposeBytes.drop (i + 1), public_key, exin, ?_, ?_, hex, hBeq, himp⟩
              · rw [hpin]
              · rw [hpk]

/-- C3 (amended): whenever the handshake records a verification buffer,
that buffer is remote-Propose-encoded-bytes followed directly by the
peer's ephemeral public key — the local Propose contributes nothing,
since the code never encodes it (propose_out_bytes stays NULL with size
0) — and a signature that fails to verify against the recorded identity
key forces the signatureInvalid exit with return value 0. -/
theorem handshake_verify_transcript (env : Env) (B : List Nat)
    (hvb : (libp2p_secio_handshake env).verifyBuffer = some B) :
    ∃ pin pk exin,
      (libp2p_secio_handshake env).proposeInBytes = some pin ∧
      (libp2p_secio_handshake env).publicKeyIn = some pk ∧
      (libp2p_secio_handshake env).exchangeIn = some exin ∧
      B = pin ++ exin.epubkey ∧
      (libp2p_secio_verify_signature env.rsaVerify pk B exin.signature = false →
        (libp2p_secio_handshake env).exit = HSExit.signatureInvalid ∧
        (libp2p_secio_handshake env).retVal = 0) :=
  handshake_verify_aux env B hvb

/-- Witness for handshake_verify_transcript on `envBadSig`, where the
verification buffer [42, 70] is recorded and the signature is rejected:
the transcript decomposes as remote Propose bytes [42] ++ ephemeral key
[70], and the run exits at signatureInvalid with return 0. -/
theorem handshake_verify_transcript_witness :
    (libp2p_secio_handshake envBadSig).verifyBuffer = some [42, 70] ∧
    ∃ pin pk exin,
      (libp2p_secio_handshake envBadSig).proposeInBytes = some pin ∧
      (libp2p_secio_handshake envBadSig).publicKeyIn = some pk ∧
      (libp2p_secio_handshake envBadSig).exchangeIn = some exin ∧
      [42, 70] = pin ++ exin.epubkey ∧
      (libp2p_secio_verify_signature envBadSig.rsaVerify pk [42, 70] exin.signature = false →
        (libp2p_secio_handshake envBadSig).exit = HSExit.signatureInvalid ∧
        (libp2p_secio_handshake envBadSig).retVal = 0) :=
  ⟨by decide, handshake_verify_transcript envBadSig [42, 70] (by decide)⟩
